import Mathlib

/-
Verification of the smol_db client specification against the visible
repository surface.  The repository under src/ contains only the C header
bindings.h (declaring the FFI functions and the three status constants)
and an example program; the client core itself (session state machine,
transport, result mapper) is code of this repository that is not under
src/.  Those parts are therefore modelled from the specification, faithful
to its words, and each such definition carries a doc comment saying so.
-/

/-- Status constant from src/bindings.h line 12: OK_STATE is 0. -/
def OK_STATE : Int := 0

/-- Status constant from src/bindings.h line 10: ERROR_STATE is 1. -/
def ERROR_STATE : Int := 1

/-- Status constant from src/bindings.h line 8: DATA_NOT_FOUND_STATE is 2. -/
def DATA_NOT_FOUND_STATE : Int := 2

/-- Modelled from the spec: the error taxonomy of section 7 of the spec;
the client source holding this enumeration is missing from src/. -/
inductive ClientError
  | ConnectionRefused
  | Timeout
  | DnsFailure
  | ConnectionReset
  | NotConnected
  | AuthenticationMissing
  | NegotiationFailed
  | AlreadyEncrypted
  | Truncated
  | UnknownStatus (code : Int)
  | DataNotFound
  | Error (detail : String)
deriving DecidableEq, Repr

/-- Modelled from the spec: the operation kind carried by a request
(section 3, Request.operation); the codec source is missing from src/. -/
inductive OpKind
  | Read
  | Write
deriving DecidableEq, Repr

/-- Modelled from the spec: the outcome of the Result Mapper (section 4.5);
OK carries the payload for reads and unit for writes, every failure is a
typed error.  The mapper source is missing from src/. -/
inductive MapResult
  | OKRead (payload : Option String)
  | OKWrite
  | Fail (e : ClientError)
deriving DecidableEq, Repr

/-- Modelled from the spec: the Result Mapper of section 4.5, the pure
function map(status_code, payload, detail).  Status code 2 yields
DataNotFound regardless of payload, 1 yields Error(detail) with detail
defaulting to the empty string, 0 yields OK(payload) for reads and OK(())
for writes, anything else yields UnknownStatus(code).  The mapper source
is missing from src/; the three wire constants come from src/bindings.h. -/
def resultMap (kind : OpKind) (status_code : Int)
    (payload : Option String) (detail : Option String) : MapResult :=
  if status_code = DATA_NOT_FOUND_STATE then
    MapResult.Fail ClientError.DataNotFound
  else if status_code = ERROR_STATE then
    MapResult.Fail (ClientError.Error (detail.getD ""))
  else if status_code = OK_STATE then
    match kind with
    | OpKind.Read => MapResult.OKRead payload
    | OpKind.Write => MapResult.OKWrite
  else
    MapResult.Fail (ClientError.UnknownStatus status_code)

/-- Modelled from the spec: the (name, location) pair identifying a record
on the server (section 3, DbLocator); source missing from src/. -/
structure DbLocator where
  name : String
  location : String
deriving DecidableEq, Repr

/-- Modelled from the spec: the Session record of section 3, holding the
server address, connection state, the optional pre-shared authentication
key and the encryption flag.  msgsOnConn counts the messages already sent
on the current connection (reset on every connect), so that the rule that
encryption setup must be the first message on a fresh connection can be
stated.  The session source is missing from src/. -/
structure Session where
  server_address : String
  connected : Bool
  authentication_key : Option String
  encryption_enabled : Bool
  msgsOnConn : Nat
deriving DecidableEq, Repr

/-- Modelled from the spec: the environment the client runs against,
namely whether transport connect attempts succeed and whether the server
accepts encryption negotiation; the real network is external. -/
structure Env where
  connectOk : Bool
  negotiationOk : Bool
deriving DecidableEq, Repr

/-- Modelled from the spec: the world a client operation acts on, namely
the session, the server stub store of section 8 property 1, a transport
spy counter of network calls (section 8 property 3) and a counter of
reconnect attempts (section 4.3).  The client source is missing from
src/. -/
structure World where
  session : Session
  store : List (DbLocator × String)
  netCalls : Nat
  reconnectAttempts : Nat
deriving DecidableEq, Repr

/-- Lookup of a locator in the server stub store, newest entry first. -/
def storeLookup : List (DbLocator × String) → DbLocator → Option String
  | [], _ => none
  | (l, v) :: rest, loc => if l = loc then some v else storeLookup rest loc

/-- Modelled from the spec: Session.new of section 4.3, which does not
connect eagerly and starts with no key and encryption off. -/
def Session.new (addr : String) : Session :=
  { server_address := addr
    connected := false
    authentication_key := none
    encryption_enabled := false
    msgsOnConn := 0 }

/-- Modelled from the spec: Transport.connect of section 4.1; one network
call, succeeds when the environment allows it, yielding a fresh connection
with no messages sent yet.  The transport source is missing from src/. -/
def transportConnect (env : Env) (w : World) : Except ClientError Unit × World :=
  let w1 : World := { w with netCalls := w.netCalls + 1 }
  if env.connectOk then
    (Except.ok (),
     { w1 with session := { w1.session with connected := true, msgsOnConn := 0 } })
  else
    (Except.error ClientError.ConnectionRefused, w1)

/-- Modelled from the spec: Transport.disconnect of section 4.1; one
network call, fails with NotConnected when no connection is live.  The
transport source is missing from src/. -/
def transportDisconnect (w : World) : Except ClientError Unit × World :=
  let w1 : World := { w with netCalls := w.netCalls + 1 }
  if w.session.connected then
    (Except.ok (), { w1 with session := { w1.session with connected := false } })
  else
    (Except.error ClientError.NotConnected, w1)

/-- Modelled from the spec: Session.set_key of section 4.3, declared as
smol_db_client_set_key in src/bindings.h line 28; stores the key with no
network effect.  The implementation is missing from src/. -/
def set_key (k : String) (w : World) : Except ClientError Unit × World :=
  (Except.ok (),
   { w with session := { w.session with authentication_key := some k } })

/-- Modelled from the spec: Session.connect of section 4.3, delegating to
the transport.  The implementation is missing from src/. -/
def connect (env : Env) (w : World) : Except ClientError Unit × World :=
  transportConnect env w

/-- Modelled from the spec: Session.disconnect of section 4.3, declared as
smol_db_client_disconnect in src/bindings.h line 16, delegating to the
transport.  The implementation is missing from src/. -/
def disconnect (w : World) : Except ClientError Unit × World :=
  transportDisconnect w

/-- Modelled from the spec: Session.reconnect of section 4.3, declared as
smol_db_client_reconnect in src/bindings.h line 26: best-effort disconnect
with the error ignored, then connect, and additionally always clears the
encryption flag (section 4.2: wire encryption is connection-scoped).  One
reconnect attempt is counted per invocation.  The implementation is
missing from src/. -/
def reconnect (env : Env) (w : World) : Except ClientError Unit × World :=
  let p1 := transportDisconnect w
  let p2 := transportConnect env p1.2
  (p2.1,
   { p2.2 with
       session := { p2.2.session with encryption_enabled := false }
       reconnectAttempts := p2.2.reconnectAttempts + 1 })

/-- Modelled from the spec: Session.setup_encryption of sections 4.2 and
4.3, declared as smol_db_client_setup_encryption in src/bindings.h line
30.  Fails with NotConnected without a live connection, with
AlreadyEncrypted when encryption is already enabled; otherwise sends the
negotiation message, which the server accepts only as the first message on
a fresh connection.  The implementation is missing from src/. -/
def setup_encryption (env : Env) (w : World) : Except ClientError Unit × World :=
  if w.session.connected = false then
    (Except.error ClientError.NotConnected, w)
  else if w.session.encryption_enabled then
    (Except.error ClientError.AlreadyEncrypted, w)
  else
    let fresh : Bool := w.session.msgsOnConn = 0
    let w1 : World :=
      { w with
          netCalls := w.netCalls + 1
          session := { w.session with msgsOnConn := w.session.msgsOnConn + 1 } }
    if env.negotiationOk && fresh then
      (Except.ok (),
       { w1 with session := { w1.session with encryption_enabled := true } })
    else
      (Except.error ClientError.NegotiationFailed, w1)

/-- Modelled from the spec: the server stub reply to a read request
(sections 4.4 and 8): status 0 with the stored payload when the locator
has been written, status 2 when it is absent.  The server is external. -/
def serverRead (store : List (DbLocator × String)) (loc : DbLocator) :
    Int × Option String :=
  match storeLookup store loc with
  | some v => (OK_STATE, some v)
  | none => (DATA_NOT_FOUND_STATE, none)

/-- One framed request/response exchange on the live connection: one
network call, one more message on the current connection. -/
def sendReceive (w : World) : World :=
  { w with
      netCalls := w.netCalls + 1
      session := { w.session with msgsOnConn := w.session.msgsOnConn + 1 } }

/-- Modelled from the spec: Session.read of section 4.3, declared as
smol_db_client_read_db in src/bindings.h lines 22 to 24.  Fails with
AuthenticationMissing without contacting the network when no key is set;
from the Disconnected state it auto-triggers a single reconnect attempt
before failing; otherwise sends a Read request and maps the stub reply
through the Result Mapper.  The implementation is missing from src/. -/
def read_db (env : Env) (loc : DbLocator) (w : World) :
    Except ClientError String × World :=
  match w.session.authentication_key with
  | none => (Except.error ClientError.AuthenticationMissing, w)
  | some _ =>
    let pc : Except ClientError Unit × World :=
      if w.session.connected then (Except.ok (), w) else reconnect env w
    match pc.1 with
    | Except.error e => (Except.error e, pc.2)
    | Except.ok () =>
      let w2 := sendReceive pc.2
      let reply := serverRead w2.store loc
      match resultMap OpKind.Read reply.1 reply.2 none with
      | MapResult.OKRead p => (Except.ok (p.getD ""), w2)
      | MapResult.OKWrite => (Except.ok "", w2)
      | MapResult.Fail e => (Except.error e, w2)

/-- Modelled from the spec: Session.write of section 4.3, declared as
smol_db_client_write_db in src/bindings.h lines 32 to 35.  Same
authentication and reconnect preconditions as read; sends a Write request
carrying the data, the stub stores it and replies status 0, mapped
through the Result Mapper.  The implementation is missing from src/. -/
def write_db (env : Env) (loc : DbLocator) (data : String) (w : World) :
    Except ClientError Unit × World :=
  match w.session.authentication_key with
  | none => (Except.error ClientError.AuthenticationMissing, w)
  | some _ =>
    let pc : Except ClientError Unit × World :=
      if w.session.connected then (Except.ok (), w) else reconnect env w
    match pc.1 with
    | Except.error e => (Except.error e, pc.2)
    | Except.ok () =>
      let w2 := sendReceive pc.2
      let w3 : World := { w2 with store := (loc, data) :: w2.store }
      match resultMap OpKind.Write OK_STATE none none with
      | MapResult.OKWrite => (Except.ok (), w3)
      | MapResult.OKRead _ => (Except.ok (), w3)
      | MapResult.Fail e => (Except.error e, w3)

/-- Modelled from the spec: the teardown of section 6, declared as
smol_db_client_free in src/bindings.h line 18.  A handle is an optional
session, none once torn down; free disconnects when a connection is open
(the Bool result records whether it closed one) and on an already
torn-down handle it is a safe no-op.  The implementation is missing from
src/. -/
def sessionFree : Option Session → Option Session × Bool
  | none => (none, false)
  | some s => (none, s.connected)

/-- Modelled from the spec: the FFI boundary of section 6 surfaces exactly
the three result codes of src/bindings.h; OK maps to OK_STATE,
DataNotFound to DATA_NOT_FOUND_STATE, every other failure to ERROR_STATE.
The wrapper source is missing from src/. -/
def statusOf : Except ClientError Unit → Int
  | Except.ok _ => OK_STATE
  | Except.error ClientError.DataNotFound => DATA_NOT_FOUND_STATE
  | Except.error _ => ERROR_STATE

/-- FFI wrapper for disconnect, per src/bindings.h line 16. -/
def smol_db_client_disconnect (w : World) : Int × World :=
  let p := disconnect w
  (statusOf p.1, p.2)

/-- FFI wrapper for reconnect, per src/bindings.h line 26. -/
def smol_db_client_reconnect (env : Env) (w : World) : Int × World :=
  let p := reconnect env w
  (statusOf p.1, p.2)

/-- FFI wrapper for set_key, per src/bindings.h line 28. -/
def smol_db_client_set_key (k : String) (w : World) : Int × World :=
  let p := set_key k w
  (statusOf p.1, p.2)

/-- FFI wrapper for setup_encryption, per src/bindings.h line 30. -/
def smol_db_client_setup_encryption (env : Env) (w : World) : Int × World :=
  let p := setup_encryption env w
  (statusOf p.1, p.2)

/-- Sample concrete values for witnesses. -/
def sampleLoc : DbLocator := { name := "db1", location := "loc1" }

def sampleSession : Session :=
  { server_address := "localhost:8222"
    connected := true
    authentication_key := some "test_key_123"
    encryption_enabled := false
    msgsOnConn := 0 }

def sampleWorld : World :=
  { session := sampleSession, store := [], netCalls := 0, reconnectAttempts := 0 }

def sampleEnv : Env := { connectOk := true, negotiationOk := true }

/-- C1: the Result Mapper maps status code 2 to DataNotFound regardless of
payload, status code 1 to Error(detail) with detail defaulting to the
empty string, status code 0 to OK(payload) for reads and OK(()) for
writes, and every other status code to UnknownStatus(code), never to OK;
the wire values 0, 1, 2 of src/bindings.h are preserved exactly. -/
theorem resultMap_contract (kind : OpKind) (code : Int)
    (payload detail : Option String)
    (h : code ≠ OK_STATE ∧ code ≠ ERROR_STATE ∧ code ≠ DATA_NOT_FOUND_STATE) :
    resultMap kind DATA_NOT_FOUND_STATE payload detail
      = MapResult.Fail ClientError.DataNotFound
    ∧ resultMap kind ERROR_STATE payload detail
      = MapResult.Fail (ClientError.Error (detail.getD ""))
    ∧ resultMap kind ERROR_STATE payload none
      = MapResult.Fail (ClientError.Error "")
    ∧ resultMap OpKind.Read OK_STATE payload detail = MapResult.OKRead payload
    ∧ resultMap OpKind.Write OK_STATE payload detail = MapResult.OKWrite
    ∧ resultMap kind code payload detail
      = MapResult.Fail (ClientError.UnknownStatus code)
    ∧ (∀ p, resultMap kind code payload detail ≠ MapResult.OKRead p)
    ∧ resultMap kind code payload detail ≠ MapResult.OKWrite
    ∧ OK_STATE = 0 ∧ ERROR_STATE = 1 ∧ DATA_NOT_FOUND_STATE = 2 := by
  obtain ⟨h0, h1, h2⟩ := h
  simp only [OK_STATE, ERROR_STATE, DATA_NOT_FOUND_STATE] at h0 h1 h2 ⊢
  refine ⟨?_, ?_, ?_, ?_, ?_, ?_, ?_, ?_, ?_, ?_, ?_⟩ <;>
    simp [resultMap, OK_STATE, ERROR_STATE, DATA_NOT_FOUND_STATE, h0, h1, h2]

/-- Witness for C1 at the concrete status code 5. -/
theorem resultMap_contract_witness :
    ((5 : Int) ≠ OK_STATE ∧ (5 : Int) ≠ ERROR_STATE
      ∧ (5 : Int) ≠ DATA_NOT_FOUND_STATE)
    ∧ (resultMap OpKind.Read DATA_NOT_FOUND_STATE (some "p") (some "d")
        = MapResult.Fail ClientError.DataNotFound
      ∧ resultMap OpKind.Read ERROR_STATE (some "p") ((some "d" : Option String))
        = MapResult.Fail (ClientError.Error ((some "d" : Option String).getD ""))
      ∧ resultMap OpKind.Read ERROR_STATE (some "p") none
        = MapResult.Fail (ClientError.Error "")
      ∧ resultMap OpKind.Read OK_STATE (some "p") (some "d")
        = MapResult.OKRead (some "p")
      ∧ resultMap OpKind.Write OK_STATE (some "p") (some "d") = MapResult.OKWrite
      ∧ resultMap OpKind.Read 5 (some "p") (some "d")
        = MapResult.Fail (ClientError.UnknownStatus 5)
      ∧ (∀ p, resultMap OpKind.Read 5 (some "p") (some "d") ≠ MapResult.OKRead p)
      ∧ resultMap OpKind.Read 5 (some "p") (some "d") ≠ MapResult.OKWrite
      ∧ OK_STATE = 0 ∧ ERROR_STATE = 1 ∧ DATA_NOT_FOUND_STATE = 2) :=
  ⟨by decide, resultMap_contract OpKind.Read 5 (some "p") (some "d") (by decide)⟩

/-- C2: with no authentication key set, read and write both fail with
AuthenticationMissing, leave the world untouched and in particular make
zero network calls. -/
theorem no_key_no_network (env : Env) (loc : DbLocator) (data : String)
    (w : World) (h : w.session.authentication_key = none) :
    read_db env loc w = (Except.error ClientError.AuthenticationMissing, w)
    ∧ write_db env loc data w = (Except.error ClientError.AuthenticationMissing, w)
    ∧ (read_db env loc w).2.netCalls = w.netCalls
    ∧ (write_db env loc data w).2.netCalls = w.netCalls := by
  refine ⟨?_, ?_, ?_, ?_⟩ <;> simp [read_db, write_db, h]

/-- A concrete world with no authentication key, for the C2 witness. -/
def noKeyWorld : World :=
  { sampleWorld with
      session := { sampleSession with authentication_key := none } }

/-- Witness for C2 at a concrete keyless world. -/
theorem no_key_no_network_witness :
    noKeyWorld.session.authentication_key = none
    ∧ (read_db sampleEnv sampleLoc noKeyWorld
        = (Except.error ClientError.AuthenticationMissing, noKeyWorld)
      ∧ write_db sampleEnv sampleLoc "d" noKeyWorld
        = (Except.error ClientError.AuthenticationMissing, noKeyWorld)
      ∧ (read_db sampleEnv sampleLoc noKeyWorld).2.netCalls = noKeyWorld.netCalls
      ∧ (write_db sampleEnv sampleLoc "d" noKeyWorld).2.netCalls
        = noKeyWorld.netCalls) :=
  ⟨rfl, no_key_no_network sampleEnv sampleLoc "d" noKeyWorld rfl⟩

/-- C3: reconnect always leaves the session with the encryption flag
cleared, whatever the starting state. -/
theorem reconnect_clears_encryption (env : Env) (w : World) :
    ((reconnect env w).2).session.encryption_enabled = false := rfl

/-- C4: on a connected, authenticated session, write of a payload returns
OK and a subsequent read of the same locator returns OK with that exact
payload. -/
theorem write_then_read_roundtrip (env : Env) (loc : DbLocator) (data : String)
    (w : World) (k : String)
    (hk : w.session.authentication_key = some k)
    (hc : w.session.connected = true) :
    (write_db env loc data w).1 = Except.ok ()
    ∧ (read_db env loc (write_db env loc data w).2).1 = Except.ok data := by
  constructor <;>
    simp [write_db, read_db, hk, hc, sendReceive, serverRead, storeLookup,
      resultMap, OK_STATE, ERROR_STATE, DATA_NOT_FOUND_STATE]

/-- Witness for C4 at a concrete connected, authenticated world. -/
theorem write_then_read_roundtrip_witness :
    sampleWorld.session.authentication_key = some "test_key_123"
    ∧ sampleWorld.session.connected = true
    ∧ ((write_db sampleEnv sampleLoc "payload" sampleWorld).1 = Except.ok ()
      ∧ (read_db sampleEnv sampleLoc
          (write_db sampleEnv sampleLoc "payload" sampleWorld).2).1
        = Except.ok "payload") :=
  ⟨rfl, rfl,
    write_then_read_roundtrip sampleEnv sampleLoc "payload" sampleWorld
      "test_key_123" rfl rfl⟩

/-- C5: on a connected, authenticated session, a read of a locator that
was never written fails with DataNotFound and in particular never with
an Error(detail). -/
theorem read_unwritten_not_found (env : Env) (loc : DbLocator) (w : World)
    (k : String)
    (hk : w.session.authentication_key = some k)
    (hc : w.session.connected = true)
    (hnone : storeLookup w.store loc = none) :
    (read_db env loc w).1 = Except.error ClientError.DataNotFound
    ∧ ∀ d, (read_db env loc w).1 ≠ Except.error (ClientError.Error d) := by
  have hmain : (read_db env loc w).1 = Except.error ClientError.DataNotFound := by
    simp [read_db, hk, hc, sendReceive, serverRead, hnone, resultMap,
      OK_STATE, ERROR_STATE, DATA_NOT_FOUND_STATE]
  exact ⟨hmain, by simp [hmain]⟩

/-- Witness for C5: reading from the empty store at a concrete locator. -/
theorem read_unwritten_not_found_witness :
    sampleWorld.session.authentication_key = some "test_key_123"
    ∧ sampleWorld.session.connected = true
    ∧ storeLookup sampleWorld.store sampleLoc = none
    ∧ ((read_db sampleEnv sampleLoc sampleWorld).1
        = Except.error ClientError.DataNotFound
      ∧ ∀ d, (read_db sampleEnv sampleLoc sampleWorld).1
        ≠ Except.error (ClientError.Error d)) :=
  ⟨rfl, rfl, rfl,
    read_unwritten_not_found sampleEnv sampleLoc sampleWorld "test_key_123"
      rfl rfl rfl⟩

/-- C6: disconnect is idempotent: it is a total function (never crashes),
and after any disconnect the next disconnect deterministically reports
NotConnected while leaving the session unchanged. -/
theorem disconnect_idempotent (w : World) :
    (disconnect (disconnect w).2).1 = Except.error ClientError.NotConnected
    ∧ ((disconnect (disconnect w).2).2).session = ((disconnect w).2).session := by
  cases hc : w.session.connected <;>
    simp [disconnect, transportDisconnect, hc]

/-- C7: teardown closes the underlying connection exactly when one is
open, always leaves a torn-down handle, and on an already torn-down
handle it is a safe no-op, so a second free is harmless. -/
theorem free_contract (h : Option Session) :
    (sessionFree h).1 = none
    ∧ sessionFree (sessionFree h).1 = (none, false)
    ∧ (∀ s, sessionFree (some s) = (none, s.connected)) := by
  cases h <;> simp [sessionFree]

/-- C8: an authenticated read or write from the Disconnected state
performs exactly one automatic reconnect attempt and fails when that
attempt fails, while from a connected state no reconnect attempt is made
at all: there is no other automatic retry. -/
theorem single_auto_reconnect (env : Env) (loc : DbLocator) (data : String)
    (w : World) (k : String)
    (hk : w.session.authentication_key = some k) :
    (w.session.connected = false →
        (read_db env loc w).2.reconnectAttempts = w.reconnectAttempts + 1
        ∧ (write_db env loc data w).2.reconnectAttempts = w.reconnectAttempts + 1
        ∧ (env.connectOk = false →
            (read_db env loc w).1 = Except.error ClientError.ConnectionRefused
            ∧ (write_db env loc data w).1
              = Except.error ClientError.ConnectionRefused))
    ∧ (w.session.connected = true →
        (read_db env loc w).2.reconnectAttempts = w.reconnectAttempts
        ∧ (write_db env loc data w).2.reconnectAttempts = w.reconnectAttempts) := by
  constructor
  · intro hc
    cases hco : env.connectOk
    · simp [read_db, write_db, hk, hc, reconnect, transportDisconnect,
        transportConnect, hco]
    · cases hsl : storeLookup w.store loc <;>
        simp [read_db, write_db, hk, hc, reconnect, transportDisconnect,
          transportConnect, hco, sendReceive, serverRead, hsl, resultMap,
          OK_STATE, ERROR_STATE, DATA_NOT_FOUND_STATE]
  · intro hc
    cases hsl : storeLookup w.store loc <;>
      simp [read_db, write_db, hk, hc, sendReceive, serverRead, hsl,
        resultMap, OK_STATE, ERROR_STATE, DATA_NOT_FOUND_STATE]

/-- A concrete disconnected, authenticated world for witnesses. -/
def disconnectedWorld : World :=
  { sampleWorld with
      session := { sampleSession with connected := false } }

/-- Witness for C8: from a concrete disconnected world, a read performs
exactly one reconnect attempt. -/
theorem single_auto_reconnect_witness :
    (read_db sampleEnv sampleLoc disconnectedWorld).2.reconnectAttempts
      = disconnectedWorld.reconnectAttempts + 1 :=
  ((single_auto_reconnect sampleEnv sampleLoc "d" disconnectedWorld
      "test_key_123" rfl).1 rfl).1

/-- C9: setup_encryption fails with NotConnected whenever no live
connection exists and with AlreadyEncrypted when encryption is already
enabled; when it returns OK it was sent as the first message on the fresh
connection, before any read or write. -/
theorem setup_encryption_contract (env : Env) (w : World) :
    (w.session.connected = false →
        setup_encryption env w = (Except.error ClientError.NotConnected, w))
    ∧ (w.session.connected = true → w.session.encryption_enabled = true →
        setup_encryption env w = (Except.error ClientError.AlreadyEncrypted, w))
    ∧ ((setup_encryption env w).1 = Except.ok () → w.session.msgsOnConn = 0) := by
  refine ⟨?_, ?_, ?_⟩
  · intro hc
    simp [setup_encryption, hc]
  · intro hc he
    simp [setup_encryption, hc, he]
  · intro hok
    cases hc : w.session.connected
    · simp [setup_encryption, hc] at hok
    · cases he : w.session.encryption_enabled
      · cases hm : w.session.msgsOnConn
        · rfl
        · exfalso
          simp [setup_encryption, hc, he, hm] at hok
      · simp [setup_encryption, hc, he] at hok

/-- Witness for C9: on a concrete disconnected world setup_encryption
reports NotConnected. -/
theorem setup_encryption_contract_witness :
    setup_encryption sampleEnv disconnectedWorld
      = (Except.error ClientError.NotConnected, disconnectedWorld) :=
  (setup_encryption_contract sampleEnv disconnectedWorld).1 rfl

/-- Membership in the three-value status taxonomy of src/bindings.h. -/
def isStatusCode (i : Int) : Prop :=
  i = OK_STATE ∨ i = ERROR_STATE ∨ i = DATA_NOT_FOUND_STATE

/-- C10: every status-returning FFI operation (disconnect, reconnect,
set_key, setup_encryption) returns an integer drawn only from
the set containing OK_STATE, ERROR_STATE and DATA_NOT_FOUND_STATE,
because the boundary mapping statusOf never produces anything else. -/
theorem ffi_status_taxonomy (env : Env) (k : String) (w : World) :
    (∀ r : Except ClientError Unit, isStatusCode (statusOf r))
    ∧ isStatusCode (smol_db_client_disconnect w).1
    ∧ isStatusCode (smol_db_client_reconnect env w).1
    ∧ isStatusCode (smol_db_client_set_key k w).1
    ∧ isStatusCode (smol_db_client_setup_encryption env w).1 := by
  have hall : ∀ r : Except ClientError Unit, isStatusCode (statusOf r) := by
    intro r
    cases r with
    | error e =>
      cases e <;>
        simp [statusOf, isStatusCode, OK_STATE, ERROR_STATE,
          DATA_NOT_FOUND_STATE]
    | ok u =>
      simp [statusOf, isStatusCode, OK_STATE, ERROR_STATE,
        DATA_NOT_FOUND_STATE]
  refine ⟨hall, ?_, ?_, ?_, ?_⟩ <;>
    first
      | exact hall ((disconnect w).1)
      | exact hall ((reconnect env w).1)
      | exact hall ((set_key k w).1)
      | exact hall ((setup_encryption env w).1)
